import Mathlib

/-!
Verification of the `topnews-redirect` Cloudflare worker
(`src/cloudflare-worker/worker.js`) against its natural-language
specification.  The worker's pure logic is shallowly embedded below:
JavaScript strings become Lean `String`s, fallible external effects
(cache reads/writes, primary/backup HTTP fetches) become explicit
outcome parameters, and the handler returns its response together with
a trace of the external calls it made.
-/

/-! ## Basic character/string helpers used by the embedding -/

/-- The double-quote character `"` (code point 34). -/
def dquoteChar : Char := Char.ofNat 34

/-- The single-quote character (code point 39). -/
def squoteChar : Char := Char.ofNat 39

/-- Is the first list a prefix of the second (decidable, executable)? -/
def isPrefL : List Char → List Char → Bool
  | [], _ => true
  | _ :: _, [] => false
  | a :: as, b :: bs => a = b && isPrefL as bs

/-- Does `s` contain `pat` as a contiguous substring?  Embeds
JavaScript `String.prototype.includes`. -/
def hasSub (pat : List Char) : List Char → Bool
  | [] => isPrefL pat []
  | b :: bs => isPrefL pat (b :: bs) || hasSub pat bs

/-- Embeds JavaScript `String.prototype.toLowerCase` (ASCII range, which
is all the worker's crawler tokens use). -/
def lowerStr (s : String) : String := ⟨s.data.map Char.toLower⟩

/-- Index of the last occurrence of `c` in the list, `none` when absent.
Embeds JavaScript `String.prototype.lastIndexOf` (which returns `-1`,
modelled as `none`, when the character does not occur). -/
def lastIndexOfChar (c : Char) : List Char → Option Nat
  | [] => none
  | x :: xs =>
    match lastIndexOfChar c xs with
    | some i => some (i + 1)
    | none => if x = c then some 0 else none

/-- One character of the regex class `[a-zA-Z0-9]`. -/
def isAlnumChar (c : Char) : Bool :=
  (('a' ≤ c && c ≤ 'z') || ('A' ≤ c && c ≤ 'Z') || ('0' ≤ c && c ≤ '9'))

/-- Embeds the test `/^[a-zA-Z0-9]+$/.test s`: non-empty and every
character alphanumeric. -/
def matchesAlnum (s : String) : Bool :=
  !s.data.isEmpty && s.data.all isAlnumChar

/-- Embeds JavaScript `String.prototype.trim`: drop whitespace from
both ends. -/
def trimStr (s : String) : String :=
  ⟨((s.data.dropWhile Char.isWhitespace).reverse.dropWhile Char.isWhitespace).reverse⟩

/-! ## Identifier Extractor (worker.js `extractId`, lines 122-129) -/

/-- Embeds `extractId` from worker.js:
`if (!slug) return null; const lastDash = slug.lastIndexOf('-');
if (lastDash === -1) return slug; const id = slug.slice(lastDash + 1);
return /^[a-zA-Z0-9]+$/.test(id) ? id : null;` -/
def extractId (slug : String) : Option String :=
  if slug = "" then none
  else
    match lastIndexOfChar '-' slug.data with
    | none => some slug
    | some lastDash =>
      let id : String := ⟨slug.data.drop (lastDash + 1)⟩
      if matchesAlnum id then some id else none

/-- The candidate identifier as the spec describes it: "the substring
after the last hyphen", written here independently of `extractId`'s
index arithmetic, as the maximal hyphen-free suffix. -/
def afterLastHyphen (l : List Char) : List Char :=
  (l.reverse.takeWhile (fun c => c ≠ '-')).reverse

/-- The Identifier Extractor exactly as claim C1 words it: null on the
empty slug; with a hyphen, the substring after the last hyphen when
non-empty alphanumeric, else null; with no hyphen, the whole slug when
alphanumeric, else null. -/
def extractIdClaim (slug : String) : Option String :=
  if slug = "" then none
  else if '-' ∈ slug.data then
    let cand : String := ⟨afterLastHyphen slug.data⟩
    if matchesAlnum cand then some cand else none
  else if matchesAlnum slug then some slug else none

/-- Claim C1 amended to what the code does: on a slug with no hyphen the
whole slug is returned unconditionally, with no alphanumeric check. -/
def extractIdAmended (slug : String) : Option String :=
  if slug = "" then none
  else if '-' ∈ slug.data then
    let cand : String := ⟨afterLastHyphen slug.data⟩
    if matchesAlnum cand then some cand else none
  else some slug

/-! ## Client Classifier (worker.js `isFacebookCrawler`, lines 113-117) -/

/-- Embeds `isFacebookCrawler`: the (already lower-cased) user agent
contains one of the three crawler tokens. -/
def isFacebookCrawler (userAgent : String) : Bool :=
  hasSub "facebook".data userAgent.data ||
  hasSub "facebookexternalhit".data userAgent.data ||
  hasSub "facebot".data userAgent.data

/-! ## Configuration (worker.js lines 17-40) -/

/-- Embeds the `DOMAIN_MAP` object literal as a finite map from inbound
hostname to destination base URL. -/
def DOMAIN_MAP (hostname : String) : Option String :=
  if hostname = "topnews-redirect.takhanhthient3.workers.dev" then
    some "https://topnewsus.feji.io"
  else if hostname = "tuneblast.us" then
    some "https://anhus.livextop.com"
  else none

/-- Embeds `DEFAULT_REDIRECT`. -/
def DEFAULT_REDIRECT : String := "https://topnewsus.feji.io"

namespace CONFIG

/-- Primary API endpoint. -/
def API_URL : String := "https://apisport.vbonews.com/News/news-detailbasic"

/-- Backup JSON CDN base URL. -/
def BACKUP_URL : String := "https://file.lifenews247.com/sportnews/backup"

/-- API timeout in milliseconds. -/
def API_TIMEOUT : Nat := 3000

/-- Cache TTL in seconds (24 hours). -/
def CACHE_TTL : Nat := 86400

end CONFIG

/-! ## Metadata records and external-fetch outcomes -/

/-- The `{ name, avatarLink }` record the resolver produces and caches. -/
structure MetaRecord where
  name : String
  avatarLink : String
deriving DecidableEq, Repr

/-- The JSON payload shape both sources carry (`data` of the primary
response, or the backup document itself): optional `name` and
`avatarLink` fields. -/
structure ApiData where
  name : Option String
  avatarLink : Option String
deriving DecidableEq, Repr

/-- Outcome of the primary fetch (`fetch(apiUrl, {signal...})` plus
`response.json()`), as observed by the worker:
`fetchReject` = the fetch promise rejects (network failure, or the
3000 ms timer fired and aborted it); `httpError` = it resolves with
`response.ok` false; `jsonThrow` = it resolves ok but reading the JSON
body throws; `jsonOk d` = JSON parsed, with `d` the `json.data` field
(`none` when absent or the body is null). -/
inductive PrimaryOutcome where
  | fetchReject
  | httpError (status : Nat)
  | jsonThrow
  | jsonOk (data : Option ApiData)
deriving DecidableEq, Repr

/-- Outcome of the backup fetch, same observation points as
`PrimaryOutcome` (there is no timer on this fetch). -/
inductive BackupOutcome where
  | fetchReject
  | httpError (status : Nat)
  | jsonThrow
  | jsonOk (backup : Option ApiData)
deriving DecidableEq, Repr

/-- The validation both sources share (worker.js lines 155-160 and
181-185): a non-empty trimmed `name` yields
`{ name: name.trim(), avatarLink: avatarLink || '' }`, else nothing. -/
def validRecord (d : ApiData) : Option MetaRecord :=
  match d.name with
  | some n => if trimStr n ≠ "" then some ⟨trimStr n, d.avatarLink.getD ""⟩ else none
  | none => none

/-- The primary-source step of `fetchMetaData` (worker.js lines
136-169).  Returns the record it produced (if any) together with
whether `clearTimeout(timeoutId)` was executed: the code reaches
`clearTimeout` (line 149) only after `await fetch` resolves, so on a
rejected fetch the catch block runs and the timer is never disarmed. -/
def primaryStep : PrimaryOutcome → Option MetaRecord × Bool
  | .fetchReject => (none, false)
  | .httpError _ => (none, true)
  | .jsonThrow => (none, true)
  | .jsonOk none => (none, true)
  | .jsonOk (some d) => (validRecord d, true)

/-- The backup-source step of `fetchMetaData` (worker.js lines
172-195). -/
def backupStep : BackupOutcome → Option MetaRecord
  | .jsonOk (some d) => validRecord d
  | _ => none

/-- Embeds `fetchMetaData` (worker.js lines 134-200): primary source,
then backup source, then the empty record. -/
def fetchMetaData (p : PrimaryOutcome) (b : BackupOutcome) : MetaRecord :=
  match (primaryStep p).1 with
  | some r => r
  | none =>
    match backupStep b with
    | some r => r
    | none => ⟨"", ""⟩

/-- The backup half of the resolution contract as claim C3 words it,
written independently of `backupStep`. -/
def specResolveBackup (b : BackupOutcome) : MetaRecord :=
  match b with
  | .jsonOk (some d) =>
    (match d.name with
     | some n => if trimStr n = "" then ⟨"", ""⟩ else ⟨trimStr n, d.avatarLink.getD ""⟩
     | none => ⟨"", ""⟩)
  | _ => ⟨"", ""⟩

/-- The resolution contract as claim C3 words it: the primary record
when the primary fetch succeeds with a non-empty trimmed name,
otherwise the backup record under the same rule, otherwise the empty
record. -/
def specResolve (p : PrimaryOutcome) (b : BackupOutcome) : MetaRecord :=
  match p with
  | .jsonOk (some d) =>
    (match d.name with
     | some n => if trimStr n = "" then specResolveBackup b else ⟨trimStr n, d.avatarLink.getD ""⟩
     | none => specResolveBackup b)
  | _ => specResolveBackup b

/-! ## HTML Renderer (worker.js `escapeHtml` and `createMetaResponse`) -/

/-- Embeds one global single-character regex replacement
`str.replace(/c/g, rep)` over the character list of the string. -/
def replaceChar (c : Char) (rep : List Char) : List Char → List Char
  | [] => []
  | x :: xs => (if x = c then rep else [x]) ++ replaceChar c rep xs

/-- Embeds the five chained replacements of `escapeHtml` (worker.js
lines 239-244), applied in source order: `&` first, then `<`, `>`,
the double quote, the single quote. -/
def escapeHtmlL (l : List Char) : List Char :=
  replaceChar squoteChar "&#39;".data
    (replaceChar dquoteChar "&quot;".data
      (replaceChar '>' "&gt;".data
        (replaceChar '<' "&lt;".data
          (replaceChar '&' "&amp;".data l))))

/-- Embeds `escapeHtml` (worker.js lines 237-245), including the
`if (!str) return ''` guard (on strings, falsy means empty). -/
def escapeHtml (str : String) : String :=
  if str = "" then "" else ⟨escapeHtmlL str.data⟩

/-- How a single character is encoded by `escapeHtmlL` (proved below):
each of the five special characters becomes its entity, every other
character stays itself. -/
def encodeChar (c : Char) : List Char :=
  if c = '&' then "&amp;".data
  else if c = '<' then "&lt;".data
  else if c = '>' then "&gt;".data
  else if c = dquoteChar then "&quot;".data
  else if c = squoteChar then "&#39;".data
  else [c]

/-- Decoding of the five entities `&amp; &lt; &gt; &quot; &#39;`, as
claim C6 describes the round trip: scan left to right, turning each
entity back into its character and copying everything else. -/
def decodeEntities : List Char → List Char
  | '&' :: 'a' :: 'm' :: 'p' :: ';' :: r => '&' :: decodeEntities r
  | '&' :: 'l' :: 't' :: ';' :: r => '<' :: decodeEntities r
  | '&' :: 'g' :: 't' :: ';' :: r => '>' :: decodeEntities r
  | '&' :: 'q' :: 'u' :: 'o' :: 't' :: ';' :: r => dquoteChar :: decodeEntities r
  | '&' :: '#' :: '3' :: '9' :: ';' :: r => squoteChar :: decodeEntities r
  | x :: r => x :: decodeEntities r
  | [] => []

/-- String form of `decodeEntities`. -/
def decodeStr (s : String) : String := ⟨decodeEntities s.data⟩

/-- The HTML document of `createMetaResponse` (worker.js lines
209-222), a template with the escaped name in the title, `og:title`
and `og:description` slots and the escaped avatar link in the
`og:image` slot. -/
def htmlTemplate (safeName safeImage : String) : String :=
  "<!DOCTYPE html>\n<html lang=\"vi\">\n<head>\n  <meta charset=\"UTF-8\">\n  <meta name=\"viewport\" content=\"width=device-width, initial-scale=1.0\">\n  <title>"
  ++ safeName ++
  "</title>\n  <meta property=\"og:title\" content=\"" ++ safeName ++
  "\" />\n  <meta property=\"og:description\" content=\"" ++ safeName ++
  "\" />\n  <meta property=\"og:image\" content=\"" ++ safeImage ++
  "\" />\n  <meta property=\"og:type\" content=\"article\" />\n  <meta property=\"fb:app_id\" content=\"\" />\n</head>\n<body></body>\n</html>"

/-- A worker response: either `Response.redirect(location, status)` or
the HTML page built by `new Response(html, {...})`, carrying its
status and the three headers set by `createMetaResponse`. -/
inductive HResponse where
  | redirect (location : String) (status : Nat)
  | page (status : Nat) (contentType cacheControl xRobotsTag : String) (html : String)
deriving DecidableEq, Repr

/-- Embeds `createMetaResponse` (worker.js lines 205-232). -/
def createMetaResponse (name avatarLink : String) : HResponse :=
  HResponse.page 200 "text/html;charset=UTF-8"
    "public, max-age=86400, s-maxage=86400" "noindex, nofollow"
    (htmlTemplate (escapeHtml name) (escapeHtml avatarLink))

/-! ## Cache serialization (`JSON.stringify(metaData)` on line 96) -/

/-- Lower-case hexadecimal digit. -/
def hexDigit (n : Nat) : Char :=
  if n < 10 then Char.ofNat (48 + n) else Char.ofNat (87 + n)

/-- JSON string escaping of one character, as `JSON.stringify` performs
it on string values. -/
def jsonEscapeChar (c : Char) : List Char :=
  if c = dquoteChar then ['\\', dquoteChar]
  else if c = '\\' then ['\\', '\\']
  else if c = Char.ofNat 10 then ['\\', 'n']
  else if c = Char.ofNat 13 then ['\\', 'r']
  else if c = Char.ofNat 9 then ['\\', 't']
  else if c = Char.ofNat 8 then ['\\', 'b']
  else if c = Char.ofNat 12 then ['\\', 'f']
  else if c.toNat < 32 then
    ['\\', 'u', '0', '0', hexDigit (c.toNat / 16), hexDigit (c.toNat % 16)]
  else [c]

/-- JSON string escaping. -/
def jsonEscape (s : String) : String := ⟨(s.data.map jsonEscapeChar).flatten⟩

/-- Embeds `JSON.stringify` of a `{ name, avatarLink }` record. -/
def serializeRecord (r : MetaRecord) : String :=
  "\x7b\"name\":\"" ++ jsonEscape r.name ++ "\",\"avatarLink\":\"" ++
  jsonEscape r.avatarLink ++ "\"\x7d"

/-! ## Router / Request Handler (worker.js `fetch`, lines 44-105) -/

/-- The parsed parts of `new URL(request.url)` the handler uses, plus
the `User-Agent` header (`none` when the header is absent). -/
structure Request where
  hostname : String
  pathname : String
  search : String
  userAgent : Option String
deriving DecidableEq, Repr

/-- Outcome of `env.META_CACHE.get("meta:"+id, 'json')`: a throw
(caught and treated as a miss), a null/absent value, or a parsed
record. -/
inductive CacheReadOutcome where
  | readError
  | miss
  | hit (cached : MetaRecord)
deriving DecidableEq, Repr

/-- Outcome of `env.META_CACHE.put(...)`: resolves, or rejects (the
rejection is caught and only logged). -/
inductive CacheWriteOutcome where
  | ok
  | writeError
deriving DecidableEq, Repr

/-- The behaviour of the external world during one request: what the
cache read would yield, what the two fetches would yield, and whether
a cache write would succeed. -/
structure World where
  cacheRead : CacheReadOutcome
  primary : PrimaryOutcome
  backup : BackupOutcome
  cacheWrite : CacheWriteOutcome
deriving DecidableEq, Repr

/-- Trace of the external calls one invocation performed: the cache key
read (if any), the primary URL fetched (if any), the backup URL
fetched (if any), and the cache write key/value/TTL (if any). -/
structure Trace where
  cacheGet : Option String
  apiFetch : Option String
  backupFetch : Option String
  cachePut : Option (String × String × Nat)
deriving DecidableEq, Repr

/-- The empty trace: no cache access and no fetch. -/
def noEffects : Trace := ⟨none, none, none, none⟩

namespace Worker

/-- Embeds the exported `fetch` handler (worker.js lines 44-105).
`hasCacheBinding` is the truthiness of `env.META_CACHE`; `w` supplies
the outcomes of the external calls, which the second component of the
result records. -/
def fetch (request : Request) (hasCacheBinding : Bool) (w : World) :
    HResponse × Trace :=
  let userAgent := lowerStr (request.userAgent.getD "")
  if !isFacebookCrawler userAgent then
    let targetDomain := (DOMAIN_MAP request.hostname).getD DEFAULT_REDIRECT
    (HResponse.redirect (targetDomain ++ request.pathname ++ request.search) 301,
     noEffects)
  else
    let pathname := request.pathname
    if pathname = "/" ∨ pathname = "" then
      (createMetaResponse "Trang chủ" "", noEffects)
    else
      let slug := pathname.drop 1
      match extractId slug with
      | none => (createMetaResponse "Không tìm thấy" "", noEffects)
      | some id =>
        let readKey : Option String :=
          if hasCacheBinding then some ("meta:" ++ id) else none
        match hasCacheBinding, w.cacheRead with
        | true, .hit cached =>
          (createMetaResponse cached.name cached.avatarLink,
           ⟨readKey, none, none, none⟩)
        | _, _ =>
          let metaData := fetchMetaData w.primary w.backup
          let putEff : Option (String × String × Nat) :=
            if hasCacheBinding && metaData.name != "" then
              some ("meta:" ++ id, serializeRecord metaData, CONFIG.CACHE_TTL)
            else none
          (createMetaResponse metaData.name metaData.avatarLink,
           ⟨readKey,
            some (CONFIG.API_URL ++ "?id=" ++ id),
            if ((primaryStep w.primary).1).isNone then
              some (CONFIG.BACKUP_URL ++ "/" ++ id ++ ".json")
            else none,
            putEff⟩)

end Worker

/-- Did a worker invocation observe the primary fetch promise resolve
(as opposed to reject through network failure or the timeout abort)? -/
def fetchResolved : PrimaryOutcome → Bool
  | .fetchReject => false
  | _ => true

/-- Did the cache read yield a usable record? -/
def isHit : CacheReadOutcome → Bool
  | .hit _ => true
  | _ => false

/-! # Theorems -/

/-! ## Helper lemmas on lists and characters -/

theorem lastIndexOfChar_eq_none (c : Char) (l : List Char) :
    lastIndexOfChar c l = none ↔ c ∉ l := by
  induction l with
  | nil => simp [lastIndexOfChar]
  | cons x xs ih =>
    rw [lastIndexOfChar]
    cases h : lastIndexOfChar c xs with
    | some i =>
      have hc : c ∈ xs := by
        by_contra hcn
        simp [ih.mpr hcn] at h
      simp [List.mem_cons, hc]
    | none =>
      have hc : c ∉ xs := ih.mp h
      by_cases hx : x = c
      · subst hx
        simp
      · simp only [hx, if_false, List.mem_cons]
        constructor
        · intro _ hor
          rcases hor with hcx | hm
          · exact hx hcx.symm
          · exact hc hm
        · intro _
          trivial

theorem takeWhile_append_of_all {p : Char → Bool} {l : List Char}
    (m : List Char) (h : ∀ a ∈ l, p a = true) :
    (l ++ m).takeWhile p = l ++ m.takeWhile p := by
  induction l with
  | nil => simp
  | cons x xs ih =>
    have hx : p x = true := h x (List.mem_cons_self x xs)
    simp only [List.cons_append, List.takeWhile_cons_of_pos hx, List.cons.injEq, true_and]
    exact ih fun a ha => h a (List.mem_cons_of_mem x ha)

theorem takeWhile_append_of_mem {p : Char → Bool} {l : List Char}
    (m : List Char) {a : Char} (ha : a ∈ l) (hpa : p a = false) :
    (l ++ m).takeWhile p = l.takeWhile p := by
  induction l with
  | nil => cases ha
  | cons x xs ih =>
    by_cases hx : p x = true
    · have hax : a ∈ xs := by
        rcases List.mem_cons.mp ha with rfl | hm
        · rw [hpa] at hx; cases hx
        · exact hm
      simp only [List.cons_append, List.takeWhile_cons_of_pos hx, List.cons.injEq, true_and]
      exact ih hax
    · have hx' : ¬ p x = true := hx
      simp [List.takeWhile_cons_of_neg hx']

theorem drop_lastIndexOfChar (c : Char) (l : List Char) (i : Nat)
    (h : lastIndexOfChar c l = some i) :
    l.drop (i + 1) = (l.reverse.takeWhile (fun a => a ≠ c)).reverse := by
  induction l generalizing i with
  | nil => cases h
  | cons x xs ih =>
    rw [lastIndexOfChar] at h
    cases hxs : lastIndexOfChar c xs with
    | some j =>
      rw [hxs] at h
      injection h with h
      subst h
      have hcm : c ∈ xs := by
        by_contra hcn
        simp [(lastIndexOfChar_eq_none c xs).mpr hcn] at hxs
      have hrev : c ∈ xs.reverse := List.mem_reverse.mpr hcm
      have hpc : (fun a => decide (a ≠ c)) c = false := by simp
      rw [List.drop_succ_cons, ih j hxs, List.reverse_cons,
        takeWhile_append_of_mem [x] hrev hpc]
    | none =>
      rw [hxs] at h
      by_cases hx : x = c
      · rw [if_pos hx] at h
        injection h with h
        subst h
        subst hx
        have hall : ∀ a ∈ xs.reverse, (fun a => decide (a ≠ x)) a = true := by
          intro a ha
          have : a ∈ xs := List.mem_reverse.mp ha
          have hax : a ≠ x := by
            intro hax
            exact ((lastIndexOfChar_eq_none x xs).mp hxs) (hax ▸ this)
          simpa using hax
        rw [List.reverse_cons, takeWhile_append_of_all [x] hall]
        simp
      · rw [if_neg hx] at h
        cases h

/-! ## C1: the Identifier Extractor -/

/-- C1 (counterexample): the claim says a slug with no hyphen must pass
the `^[a-zA-Z0-9]+$` check to be returned, but `extractId` (worker.js
line 125) returns a hyphen-free slug before the check: on `"a_b"` the
code returns `"a_b"` while the claim demands null. -/
theorem extractId_claim_cex :
    extractId "a_b" = some "a_b" ∧ extractIdClaim "a_b" = none := by
  constructor
  · rfl
  · rfl

/-- C1 (amended): `extractId` returns null on the empty slug; when the
slug contains a hyphen it returns the substring after the last hyphen
exactly when that substring is non-empty alphanumeric, else null; when
the slug has no hyphen it returns the whole slug unconditionally (the
alphanumeric validation is not applied on that branch). -/
theorem extractId_matches_amended_claim (slug : String) :
    extractId slug = extractIdAmended slug := by
  unfold extractId extractIdAmended
  by_cases hs : slug = ""
  · simp [hs]
  · simp only [hs, if_false]
    cases h : lastIndexOfChar '-' slug.data with
    | none =>
      have hnm : '-' ∉ slug.data := (lastIndexOfChar_eq_none '-' slug.data).mp h
      simp [hnm]
    | some i =>
      have hmem : '-' ∈ slug.data := by
        by_contra hn
        simp [(lastIndexOfChar_eq_none '-' slug.data).mpr hn] at h
      have hstr : (⟨slug.data.drop (i + 1)⟩ : String) = ⟨afterLastHyphen slug.data⟩ :=
        congrArg String.mk (by unfold afterLastHyphen; exact drop_lastIndexOfChar '-' slug.data i h)
      simp only [hmem, if_true]
      rw [hstr]

/-! ## C9: the primary-fetch timeout timer -/

/-- C9 (counterexample): the claim says the 3000 ms abort timer is
disarmed on every completion path of the primary fetch, but when the
fetch promise rejects the catch block (worker.js line 167) is entered
before `clearTimeout` (line 149) runs, so the timer is not disarmed. -/
theorem primary_timer_cex :
    (primaryStep PrimaryOutcome.fetchReject).2 = false := rfl

/-- C9 (amended): `clearTimeout` runs exactly when the primary fetch
promise resolves (whatever its status or body); when the fetch rejects
— network failure or the timeout abort itself — the timer is left
armed. -/
theorem primary_timer_disarm_iff_resolved (o : PrimaryOutcome) :
    (primaryStep o).2 = fetchResolved o := by
  cases o with
  | fetchReject => rfl
  | httpError s => rfl
  | jsonThrow => rfl
  | jsonOk d => cases d <;> rfl

/-! ## C3: the metadata resolution fallback chain -/

theorem backup_match_eq (b : BackupOutcome) :
    (match backupStep b with
     | some r => r
     | none => (⟨"", ""⟩ : MetaRecord)) = specResolveBackup b := by
  cases b with
  | fetchReject => rfl
  | httpError s => rfl
  | jsonThrow => rfl
  | jsonOk ob =>
    cases ob with
    | none => rfl
    | some d =>
      cases hn : d.name with
      | none => simp [backupStep, validRecord, specResolveBackup, hn]
      | some n =>
        by_cases ht : trimStr n = ""
        · simp [backupStep, validRecord, specResolveBackup, hn, ht]
        · simp [backupStep, validRecord, specResolveBackup, hn, ht]

/-- C3: `fetchMetaData` is total by construction (every exception path
of the source is an explicit outcome) and equals the spec's fallback
chain: the primary record when the primary fetch resolves with success
and a non-empty trimmed name, else the backup record under the same
rule, else exactly `{ name: '', avatarLink: '' }`. -/
theorem fetchMetaData_fallback_contract (p : PrimaryOutcome) (b : BackupOutcome) :
    fetchMetaData p b = specResolve p b := by
  cases p with
  | fetchReject => simpa [fetchMetaData, primaryStep, specResolve] using backup_match_eq b
  | httpError s => simpa [fetchMetaData, primaryStep, specResolve] using backup_match_eq b
  | jsonThrow => simpa [fetchMetaData, primaryStep, specResolve] using backup_match_eq b
  | jsonOk od =>
    cases od with
    | none => simpa [fetchMetaData, primaryStep, specResolve] using backup_match_eq b
    | some d =>
      cases hn : d.name with
      | none =>
        simpa [fetchMetaData, primaryStep, validRecord, specResolve, hn] using backup_match_eq b
      | some n =>
        by_cases ht : trimStr n = ""
        · simpa [fetchMetaData, primaryStep, validRecord, specResolve, hn, ht] using
            backup_match_eq b
        · simp [fetchMetaData, primaryStep, validRecord, specResolve, hn, ht]

/-! ## C7: the non-crawler fast path -/

/-- C7: a request whose user agent does not classify as a crawler gets a
301 redirect to the destination mapped to its hostname (default when
absent) concatenated with the original path and query string, with no
fetch and no cache access. -/
theorem fast_path_redirect (req : Request) (hc : Bool) (w : World)
    (hua : isFacebookCrawler (lowerStr (req.userAgent.getD "")) = false) :
    Worker.fetch req hc w =
      (HResponse.redirect
        ((DOMAIN_MAP req.hostname).getD DEFAULT_REDIRECT ++ req.pathname ++ req.search) 301,
       noEffects) := by
  simp [Worker.fetch, hua]

/-- Witness for C7 at the spec's end-to-end example: a non-crawler
request to hostname `tuneblast.us`, path `/foo`, query `?x=1` is
redirected to `https://anhus.livextop.com/foo?x=1`. -/
theorem fast_path_redirect_witness :
    isFacebookCrawler (lowerStr ((some "Mozilla/5.0" : Option String).getD "")) = false ∧
    Worker.fetch ⟨"tuneblast.us", "/foo", "?x=1", some "Mozilla/5.0"⟩ true
        ⟨.miss, .fetchReject, .fetchReject, .ok⟩ =
      (HResponse.redirect "https://anhus.livextop.com/foo?x=1" 301, noEffects) := by
  refine ⟨by decide, ?_⟩
  rw [fast_path_redirect ⟨"tuneblast.us", "/foo", "?x=1", some "Mozilla/5.0"⟩ true
    ⟨.miss, .fetchReject, .fetchReject, .ok⟩ (by decide)]
  rfl

/-! ## C2: the crawler homepage response -/

set_option maxRecDepth 8192 in
/-- C2 (counterexample): the claim says a crawler request to the root
path gets a page whose title and Open Graph title/description are the
empty string, but worker.js line 63 renders the placeholder name
`'Trang chủ'`; at a concrete crawler request to `/` the produced page
differs from the empty-name page. -/
theorem crawler_home_cex :
    (Worker.fetch ⟨"x.com", "/", "", some "facebookexternalhit/1.1"⟩ true
        ⟨.miss, .fetchReject, .fetchReject, .ok⟩).1 = createMetaResponse "Trang chủ" "" ∧
    (Worker.fetch ⟨"x.com", "/", "", some "facebookexternalhit/1.1"⟩ true
        ⟨.miss, .fetchReject, .fetchReject, .ok⟩).1 ≠ createMetaResponse "" "" := by
  refine ⟨rfl, ?_⟩
  intro h
  rw [show (Worker.fetch ⟨"x.com", "/", "", some "facebookexternalhit/1.1"⟩ true
      ⟨.miss, .fetchReject, .fetchReject, .ok⟩).1 = createMetaResponse "Trang chủ" "" from rfl] at h
  exact absurd h (by decide)

/-- C2 (amended): a crawler request whose path is the root (empty or
`/`) gets the 200 HTML homepage placeholder whose title, og:title and
og:description are all `'Trang chủ'` and whose og:image is empty, with
no fetch and no cache access. -/
theorem crawler_home_response (req : Request) (hc : Bool) (w : World)
    (hua : isFacebookCrawler (lowerStr (req.userAgent.getD "")) = true)
    (hroot : req.pathname = "/" ∨ req.pathname = "") :
    Worker.fetch req hc w = (createMetaResponse "Trang chủ" "", noEffects) := by
  simp [Worker.fetch, hua, hroot]

/-- Witness for C2's amended theorem at a concrete crawler request to
the root path. -/
theorem crawler_home_response_witness :
    isFacebookCrawler (lowerStr ((some "facebot" : Option String).getD "")) = true ∧
    Worker.fetch ⟨"x.com", "/", "", some "facebot"⟩ false
        ⟨.miss, .fetchReject, .fetchReject, .ok⟩ =
      (createMetaResponse "Trang chủ" "", noEffects) :=
  ⟨by decide,
   crawler_home_response ⟨"x.com", "/", "", some "facebot"⟩ false
     ⟨.miss, .fetchReject, .fetchReject, .ok⟩ (by decide) (Or.inl rfl)⟩

/-! ## C8: the crawler path always answers 200 with fixed headers -/

theorem crawler_first_is_meta (req : Request) (hc : Bool) (w : World)
    (hua : isFacebookCrawler (lowerStr (req.userAgent.getD "")) = true) :
    ∃ n a, (Worker.fetch req hc w).1 = createMetaResponse n a := by
  unfold Worker.fetch
  simp only [hua, Bool.not_true, Bool.false_eq_true, if_false]
  by_cases hroot : req.pathname = "/" ∨ req.pathname = ""
  · rw [if_pos hroot]
    exact ⟨_, _, rfl⟩
  · rw [if_neg hroot]
    cases hid : extractId (req.pathname.drop 1) with
    | none => simp [hid]
    | some id =>
      simp only [hid]
      cases hc with
      | false => exact ⟨_, _, rfl⟩
      | true =>
        cases hcr : w.cacheRead with
        | hit r => simp [hcr]
        | miss => simp [hcr]
        | readError => simp [hcr]

/-- C8: whatever the path and whatever the cache and source outcomes
(including every modelled upstream failure), a crawler request gets
status 200 with content type `text/html;charset=UTF-8`, a cache
control carrying both `max-age=86400` and `s-maxage=86400`, and
`X-Robots-Tag: noindex, nofollow`. -/
theorem crawler_always_200 (req : Request) (hc : Bool) (w : World)
    (hua : isFacebookCrawler (lowerStr (req.userAgent.getD "")) = true) :
    (∃ html, (Worker.fetch req hc w).1 =
      HResponse.page 200 "text/html;charset=UTF-8"
        "public, max-age=86400, s-maxage=86400" "noindex, nofollow" html) ∧
    hasSub "max-age=86400".data "public, max-age=86400, s-maxage=86400".data = true ∧
    hasSub "s-maxage=86400".data "public, max-age=86400, s-maxage=86400".data = true := by
  refine ⟨?_, by decide, by decide⟩
  obtain ⟨n, a, h⟩ := crawler_first_is_meta req hc w hua
  exact ⟨htmlTemplate (escapeHtml n) (escapeHtml a), by rw [h]; rfl⟩

/-- Witness for C8 at a concrete crawler request whose identifier is
valid but both sources fail. -/
theorem crawler_always_200_witness :
    isFacebookCrawler (lowerStr ((some "facebookexternalhit/1.1" : Option String).getD "")) = true ∧
    ((∃ html, (Worker.fetch ⟨"x.com", "/news-abc1", "", some "facebookexternalhit/1.1"⟩ true
        ⟨.readError, .httpError 500, .fetchReject, .ok⟩).1 =
      HResponse.page 200 "text/html;charset=UTF-8"
        "public, max-age=86400, s-maxage=86400" "noindex, nofollow" html) ∧
    hasSub "max-age=86400".data "public, max-age=86400, s-maxage=86400".data = true ∧
    hasSub "s-maxage=86400".data "public, max-age=86400, s-maxage=86400".data = true) :=
  ⟨by decide,
   crawler_always_200 ⟨"x.com", "/news-abc1", "", some "facebookexternalhit/1.1"⟩ true
     ⟨.readError, .httpError 500, .fetchReject, .ok⟩ (by decide)⟩

/-! ## C4: a cache hit short-circuits all further work -/

/-- C4: on a crawler request with a valid identifier, a successful
cache read that parses to a record makes the handler return exactly
that record rendered, having read only `"meta:" + id` and performed no
primary fetch, no backup fetch and no cache write. -/
theorem cache_hit_short_circuit (req : Request) (w : World) (id : String) (r : MetaRecord)
    (hua : isFacebookCrawler (lowerStr (req.userAgent.getD "")) = true)
    (hroot : ¬(req.pathname = "/" ∨ req.pathname = ""))
    (hid : extractId (req.pathname.drop 1) = some id)
    (hhit : w.cacheRead = CacheReadOutcome.hit r) :
    Worker.fetch req true w =
      (createMetaResponse r.name r.avatarLink,
       ⟨some ("meta:" ++ id), none, none, none⟩) := by
  unfold Worker.fetch
  simp [hua, hroot, hid, hhit]

/-- Witness for C4 at a concrete crawler request with cached record. -/
theorem cache_hit_short_circuit_witness :
    isFacebookCrawler (lowerStr ((some "facebot" : Option String).getD "")) = true ∧
    Worker.fetch ⟨"x.com", "/news-abc1", "", some "facebot"⟩ true
        ⟨.hit ⟨"Cached", "http://img"⟩, .fetchReject, .fetchReject, .ok⟩ =
      (createMetaResponse "Cached" "http://img",
       ⟨some "meta:abc1", none, none, none⟩) := by
  refine ⟨by decide, ?_⟩
  have h := cache_hit_short_circuit ⟨"x.com", "/news-abc1", "", some "facebot"⟩
    ⟨.hit ⟨"Cached", "http://img"⟩, .fetchReject, .fetchReject, .ok⟩ "abc1" ⟨"Cached", "http://img"⟩
    (by decide) (by decide) (by decide) rfl
  simpa using h

/-! ## C5: the cache write-back policy -/

/-- C5: on a crawler request with a valid identifier and the cache
binding present, a cache write occurs exactly when the read did not
hit and the fallback chain produced a non-empty name; the write uses
key `"meta:" + id`, the JSON-serialized record, and TTL 86400; and the
cache-write outcome never changes the returned response. -/
theorem cache_write_policy (req : Request) (w : World) (id : String)
    (hua : isFacebookCrawler (lowerStr (req.userAgent.getD "")) = true)
    (hroot : ¬(req.pathname = "/" ∨ req.pathname = ""))
    (hid : extractId (req.pathname.drop 1) = some id) :
    ((Worker.fetch req true w).2.cachePut =
      if !isHit w.cacheRead && (fetchMetaData w.primary w.backup).name != "" then
        some ("meta:" ++ id, serializeRecord (fetchMetaData w.primary w.backup),
          CONFIG.CACHE_TTL)
      else none) ∧
    (∀ cw, (Worker.fetch req true ⟨w.cacheRead, w.primary, w.backup, cw⟩).1 =
      (Worker.fetch req true w).1) := by
  obtain ⟨cr, p, b, cw0⟩ := w
  constructor
  · cases cr with
    | hit r => simp [Worker.fetch, hua, hroot, hid, isHit]
    | miss => simp [Worker.fetch, hua, hroot, hid, isHit]
    | readError => simp [Worker.fetch, hua, hroot, hid, isHit]
  · intro cw
    cases cr with
    | hit r => simp [Worker.fetch, hua, hroot, hid]
    | miss => simp [Worker.fetch, hua, hroot, hid]
    | readError => simp [Worker.fetch, hua, hroot, hid]

/-- Witness for C5: a concrete cache miss where the primary source
succeeds, so the record is written back with key, serialized value and
TTL 86400, and the response is the same under a failing write. -/
theorem cache_write_policy_witness :
    isFacebookCrawler (lowerStr ((some "facebot" : Option String).getD "")) = true ∧
    ¬(("/news-abc1" : String) = "/" ∨ ("/news-abc1" : String) = "") ∧
    extractId (("/news-abc1" : String).drop 1) = some "abc1" ∧
    ((Worker.fetch ⟨"x.com", "/news-abc1", "", some "facebot"⟩ true
        ⟨.miss, .jsonOk (some ⟨some "Win", some "http://x/img.png"⟩), .fetchReject, .ok⟩).2.cachePut =
      if !isHit CacheReadOutcome.miss &&
          (fetchMetaData (.jsonOk (some ⟨some "Win", some "http://x/img.png"⟩)) .fetchReject).name != "" then
        some ("meta:" ++ "abc1",
          serializeRecord (fetchMetaData (.jsonOk (some ⟨some "Win", some "http://x/img.png"⟩)) .fetchReject),
          CONFIG.CACHE_TTL)
      else none) ∧
    (∀ cw, (Worker.fetch ⟨"x.com", "/news-abc1", "", some "facebot"⟩ true
        ⟨.miss, .jsonOk (some ⟨some "Win", some "http://x/img.png"⟩), .fetchReject, cw⟩).1 =
      (Worker.fetch ⟨"x.com", "/news-abc1", "", some "facebot"⟩ true
        ⟨.miss, .jsonOk (some ⟨some "Win", some "http://x/img.png"⟩), .fetchReject, .ok⟩).1) := by
  refine ⟨by decide, by decide, by decide, ?_, ?_⟩
  · exact (cache_write_policy ⟨"x.com", "/news-abc1", "", some "facebot"⟩
      ⟨.miss, .jsonOk (some ⟨some "Win", some "http://x/img.png"⟩), .fetchReject, .ok⟩ "abc1"
      (by decide) (by decide) (by decide)).1
  · exact (cache_write_policy ⟨"x.com", "/news-abc1", "", some "facebot"⟩
      ⟨.miss, .jsonOk (some ⟨some "Win", some "http://x/img.png"⟩), .fetchReject, .ok⟩ "abc1"
      (by decide) (by decide) (by decide)).2

/-! ## C10: absent cache binding -/

/-- C10: when `env.META_CACHE` is absent, a crawler request with a
valid identifier performs no cache read and no cache write, still runs
the source-fallback chain (primary fetch always, backup fetch exactly
when the primary step yields nothing), and returns the 200 metadata
response for the resolved record. -/
theorem absent_cache_binding (req : Request) (w : World) (id : String)
    (hua : isFacebookCrawler (lowerStr (req.userAgent.getD "")) = true)
    (hroot : ¬(req.pathname = "/" ∨ req.pathname = ""))
    (hid : extractId (req.pathname.drop 1) = some id) :
    Worker.fetch req false w =
      (createMetaResponse (fetchMetaData w.primary w.backup).name
        (fetchMetaData w.primary w.backup).avatarLink,
       ⟨none, some (CONFIG.API_URL ++ "?id=" ++ id),
        if ((primaryStep w.primary).1).isNone then
          some (CONFIG.BACKUP_URL ++ "/" ++ id ++ ".json")
        else none,
        none⟩) := by
  unfold Worker.fetch
  simp [hua, hroot, hid]

set_option maxRecDepth 16384 in
/-- Witness for C10 at a concrete crawler request with no cache
binding and a failing primary source. -/
theorem absent_cache_binding_witness :
    isFacebookCrawler (lowerStr ((some "facebook" : Option String).getD "")) = true ∧
    Worker.fetch ⟨"x.com", "/news-abc1", "", some "facebook"⟩ false
        ⟨.miss, .fetchReject, .jsonOk (some ⟨some "Bar", none⟩), .ok⟩ =
      (createMetaResponse "Bar" "",
       ⟨none, some "https://apisport.vbonews.com/News/news-detailbasic?id=abc1",
        some "https://file.lifenews247.com/sportnews/backup/abc1.json", none⟩) := by
  refine ⟨by decide, ?_⟩
  have h := absent_cache_binding ⟨"x.com", "/news-abc1", "", some "facebook"⟩
    ⟨.miss, .fetchReject, .jsonOk (some ⟨some "Bar", none⟩), .ok⟩ "abc1"
    (by decide) (by decide) (by decide)
  rw [h]
  norm_num [fetchMetaData, primaryStep, backupStep, validRecord, CONFIG.API_URL, CONFIG.BACKUP_URL]
  exact ⟨by decide, by decide, by decide⟩

/-! ## C6: escaping round-trips through entity decoding -/

theorem replaceChar_append (c : Char) (rep : List Char) (l m : List Char) :
    replaceChar c rep (l ++ m) = replaceChar c rep l ++ replaceChar c rep m := by
  induction l with
  | nil => rfl
  | cons x xs ih => simp [replaceChar, ih]

theorem escapeHtmlL_cons (x : Char) (xs : List Char) :
    escapeHtmlL (x :: xs) = encodeChar x ++ escapeHtmlL xs := by
  show escapeHtmlL (([x] ++ xs : List Char)) = _
  unfold escapeHtmlL
  rw [replaceChar_append, replaceChar_append, replaceChar_append, replaceChar_append,
    replaceChar_append]
  congr 1
  by_cases h1 : x = '&'
  · subst h1; rfl
  by_cases h2 : x = '<'
  · subst h2; rfl
  by_cases h3 : x = '>'
  · subst h3; rfl
  by_cases h4 : x = dquoteChar
  · subst h4; rfl
  by_cases h5 : x = squoteChar
  · subst h5; rfl
  simp [replaceChar, encodeChar, h1, h2, h3, h4, h5]

set_option maxHeartbeats 2000000 in
theorem decodeEntities_cons_ne (x : Char) (l : List Char) (hx : x ≠ '&') :
    decodeEntities (x :: l) = x :: decodeEntities l := by
  rw [decodeEntities.eq_def]
  split <;> simp_all

theorem decode_encodeChar (x : Char) (l : List Char) :
    decodeEntities (encodeChar x ++ l) = x :: decodeEntities l := by
  by_cases h1 : x = '&'
  · subst h1; rfl
  by_cases h2 : x = '<'
  · subst h2; rfl
  by_cases h3 : x = '>'
  · subst h3; rfl
  by_cases h4 : x = dquoteChar
  · subst h4; rfl
  by_cases h5 : x = squoteChar
  · subst h5; rfl
  have he : encodeChar x = [x] := by simp [encodeChar, h1, h2, h3, h4, h5]
  rw [he]
  exact decodeEntities_cons_ne x l h1

theorem decode_escapeHtmlL (l : List Char) : decodeEntities (escapeHtmlL l) = l := by
  induction l with
  | nil => rfl
  | cons x xs ih => rw [escapeHtmlL_cons, decode_encodeChar, ih]

theorem decodeStr_escapeHtml (s : String) : decodeStr (escapeHtml s) = s := by
  by_cases h : s = ""
  · subst h; rfl
  · show decodeStr (if s = "" then "" else ⟨escapeHtmlL s.data⟩) = s
    rw [if_neg h]
    show (⟨decodeEntities (escapeHtmlL s.data)⟩ : String) = s
    rw [decode_escapeHtmlL]

/-- C6: for any name and avatar link containing the five special
characters, the rendered document embeds exactly the escaped values in
the title/og:title/og:description/og:image slots, and decoding the
five entities in those embedded values recovers the original strings;
the escaping is injective. -/
theorem escape_round_trip (name avatarLink : String)
    (_hn : ∀ c ∈ ['&', '<', '>', dquoteChar, squoteChar], c ∈ name.data)
    (_ha : ∀ c ∈ ['&', '<', '>', dquoteChar, squoteChar], c ∈ avatarLink.data) :
    createMetaResponse name avatarLink =
      HResponse.page 200 "text/html;charset=UTF-8"
        "public, max-age=86400, s-maxage=86400" "noindex, nofollow"
        (htmlTemplate (escapeHtml name) (escapeHtml avatarLink)) ∧
    decodeStr (escapeHtml name) = name ∧
    decodeStr (escapeHtml avatarLink) = avatarLink ∧
    (∀ n2 a2 : String, escapeHtml n2 = escapeHtml name →
      escapeHtml a2 = escapeHtml avatarLink → n2 = name ∧ a2 = avatarLink) := by
  refine ⟨rfl, decodeStr_escapeHtml name, decodeStr_escapeHtml avatarLink, ?_⟩
  intro n2 a2 h1 h2
  constructor
  · have hr := decodeStr_escapeHtml n2
    rw [h1, decodeStr_escapeHtml name] at hr
    exact hr.symm
  · have hr := decodeStr_escapeHtml a2
    rw [h2, decodeStr_escapeHtml avatarLink] at hr
    exact hr.symm

/-- Witness for C6 at concrete strings containing all five special
characters. -/
theorem escape_round_trip_witness :
    (∀ c ∈ ['&', '<', '>', dquoteChar, squoteChar],
      c ∈ (⟨['T', '&', '<', '>', dquoteChar, squoteChar, 'x']⟩ : String).data) ∧
    (∀ c ∈ ['&', '<', '>', dquoteChar, squoteChar],
      c ∈ (⟨['i', '&', '<', '>', dquoteChar, squoteChar]⟩ : String).data) ∧
    decodeStr (escapeHtml ⟨['T', '&', '<', '>', dquoteChar, squoteChar, 'x']⟩) =
      ⟨['T', '&', '<', '>', dquoteChar, squoteChar, 'x']⟩ ∧
    decodeStr (escapeHtml ⟨['i', '&', '<', '>', dquoteChar, squoteChar]⟩) =
      ⟨['i', '&', '<', '>', dquoteChar, squoteChar]⟩ := by
  refine ⟨by decide, by decide, ?_, ?_⟩
  · exact (escape_round_trip ⟨['T', '&', '<', '>', dquoteChar, squoteChar, 'x']⟩
      ⟨['i', '&', '<', '>', dquoteChar, squoteChar]⟩ (by decide) (by decide)).2.1
  · exact (escape_round_trip ⟨['T', '&', '<', '>', dquoteChar, squoteChar, 'x']⟩
      ⟨['i', '&', '<', '>', dquoteChar, squoteChar]⟩ (by decide) (by decide)).2.2.1
